import Mathlib

/-!
Shallow embedding of the CampusVibe ticket-issuance and attendance-verification
core.  Source routes embedded: POST /api/events/:uuid/register (IssueTicket),
POST /api/payments/proof (SubmitPaymentProof), POST
/api/organizer/payments/:ticketUuid/approve and .../reject (ReviewPayment),
POST /api/attendance/scan (ScanCheckIn), POST /api/attendance/manual
(ManualCheckIn), and the helper function applyDiscount.

Modelling conventions:
- SQLite rows become structures; the database is explicit state threaded
  through each operation.  Columns declared NOT NULL become plain fields,
  nullable columns become Option fields.  (price_cents is NOT NULL DEFAULT 0
  in the schema, but is kept as Option Int so that the JS expression
  `e.price_single_cents ?? e.price_cents ?? 9000` can be translated verbatim;
  schema-conformant rows have price_cents = some p.)
- JavaScript numbers holding integral SQL values are modelled as Int; a JS
  truthiness test on a nullable integer column is jsTruthy (null and 0 are
  falsy), on a nullable string column jsStr (null and "" are falsy).
- The HMAC-SHA256 primitive is an excluded external collaborator (spec, "6":
  an HMAC-SHA256 primitive is consumed at the boundary); it is passed to
  each operation as a function hmac : String → String giving the hex digest
  of the base string under the server-held signing secret.
- crypto.timingSafeEqual guarded by an equal-length check is byte equality of
  the two strings, hence plain string equality here.
- The QR DataURL image encoding is an excluded external encoder; the ticket
  stores the signed payload itself (field qr_code).
- JSON parsing of the scanned code is external; ScanInput.badJson stands for
  a string JSON.parse rejects, and missing payload members surface through
  the handler's own falsy-field check (empty string / zero).
- Math.round on basePrice * (100 - pct) / 100, with integral operands, is
  floor((n + 50) / 100) on integers: jsRound100.
-/

namespace CV

/-- Ticket payment status column: 'unpaid' | 'pending_proof' | 'paid' | 'rejected'. -/
inductive PayStatus
  | unpaid
  | pending_proof
  | paid
  | rejected
deriving DecidableEq, Repr

/-- User role column: 'student' | 'committee' | 'admin'. -/
inductive Role
  | student
  | committee
  | admin
deriving DecidableEq, Repr

/-- One entry of a ticket's participants_json array. -/
structure Participant where
  name : String
  roll_number : String
deriving DecidableEq, Repr

/-- Row of the users table (the columns the embedded routes read). -/
structure User where
  id : Int
  uuid : String
  name : String
  email : String
  roll_number : String
  role : Role
deriving DecidableEq, Repr

/-- Row of the events table (the columns the embedded routes read). -/
structure Event where
  id : Int
  uuid : String
  title : String
  capacity : Option Int
  price_cents : Option Int
  created_by : Int
  bank_account_no : Option String
  bank_ifsc : Option String
  bank_account_name : Option String
  upi_id : Option String
  upi_qr_url : Option String
  payment_notes : Option String
  price_single_cents : Option Int
  price_duo_cents : Option Int
  price_trio_cents : Option Int
  allowed_tiers : Option String
deriving DecidableEq, Repr

/-- Row of the discounts table. -/
structure Discount where
  id : Int
  code : String
  event_id : Int
  percentage : Option Int
  amount_cents : Option Int
  max_uses : Option Int
  used_count : Int
  active : Bool
deriving DecidableEq, Repr

/-- The decoded QR payload { ticket_uuid, event_uuid, user_id, sig }. -/
structure QrPayload where
  ticket_uuid : String
  event_uuid : String
  user_id : Int
  sig : String
deriving DecidableEq, Repr

/-- Row of the tickets table. -/
structure Ticket where
  id : Int
  uuid : String
  user_id : Int
  event_id : Int
  qr_code : Option QrPayload
  checked_in : Bool
  created_at : String
  discount_code : Option String
  price_paid_cents : Int
  payment_provider : Option String
  payment_status : PayStatus
  proof_txn_id : Option String
  proof_image_url : Option String
  proof_submitted_at : Option String
  reviewed_by : Option Int
  reviewed_at : Option String
  rejection_reason : Option String
  group_type : Option String
  participants_json : Option (List Participant)
  amount_due_cents : Option Int
deriving DecidableEq, Repr

/-- Row of the attendance table. -/
structure Attendance where
  event_id : Int
  user_id : Int
  ticket_id : Option Int
  present : Bool
  timestamp : String
  source : String
deriving DecidableEq, Repr

/-- The persistent store: the tables the embedded routes touch, plus the
tickets autoincrement counter. -/
structure DB where
  users : List User
  events : List Event
  discounts : List Discount
  tickets : List Ticket
  attendance : List Attendance
  nextTicketId : Int
deriving DecidableEq, Repr

/-- JS String.prototype.toLowerCase (kernel-reducible form over the
character list). -/
def toLowerStr (s : String) : String := String.mk (s.data.map Char.toLower)

/-- JS String.prototype.toUpperCase (kernel-reducible form over the
character list). -/
def toUpperStr (s : String) : String := String.mk (s.data.map Char.toUpper)

/-- JS String.prototype.trim (kernel-reducible form over the character
list). -/
def trimStr (s : String) : String :=
  String.mk (((s.data.dropWhile Char.isWhitespace).reverse.dropWhile
    Char.isWhitespace).reverse)

/-- Splitting on a comma separator, as JS String.prototype.split(',');
splitting the empty string gives [""]. -/
def splitCommaAux : List Char → List Char → List String
  | [], acc => [String.mk acc.reverse]
  | c :: cs, acc =>
    if c = ',' then String.mk acc.reverse :: splitCommaAux cs []
    else splitCommaAux cs (c :: acc)

/-- JS s.split(','). -/
def splitComma (s : String) : List String := splitCommaAux s.data []

/-- JS truthiness of a nullable integer column: null and 0 are falsy. -/
def jsTruthy : Option Int → Bool
  | none => false
  | some n => n != 0

/-- JS `a || dflt` for a nullable string column: null and "" are falsy. -/
def jsStr (o : Option String) (dflt : String) : String :=
  match o with
  | none => dflt
  | some s => if s = "" then dflt else s

/-- JS Math.round(n / 100) for an integer n: floor((n + 50) / 100).  Int
division by the positive constant 100 is Euclidean division, which for a
positive divisor is exactly floor division. -/
def jsRound100 (n : Int) : Int := (n + 50) / 100

/-- The discount lookup: SELECT * FROM discounts WHERE event_id = ? AND
code = ? AND active = 1 (first matching row). -/
def findDiscount (db : DB) (eventId : Int) (codeUpper : String) : Option Discount :=
  db.discounts.find? (fun d => d.event_id == eventId && d.code == codeUpper && d.active)

/-- The applyDiscount helper of the source: percentage reduction first
(JS Math.round, clamped at 0), then flat amount reduction (clamped at 0);
a missing/inactive/other-event code leaves the price unchanged. -/
def applyDiscount (db : DB) (eventId : Int) (basePrice : Int) (code : Option String) :
    Int × Option String :=
  match code with
  | none => (basePrice, none)
  | some c =>
    if c = "" then (basePrice, none)
    else
      match findDiscount db eventId (toUpperStr c) with
      | none => (basePrice, none)
      | some d =>
        let f1 : Int :=
          if jsTruthy d.percentage then
            max 0 (jsRound100 (basePrice * (100 - d.percentage.getD 0)))
          else basePrice
        let f2 : Int :=
          if jsTruthy d.amount_cents then max 0 (f1 - d.amount_cents.getD 0) else f1
        (f2, some d.code)

/-- Base price resolution of the register route:
trio: e.price_trio_cents ?? 25000; duo: e.price_duo_cents ?? 18000;
single: e.price_single_cents ?? e.price_cents ?? 9000. -/
def basePriceFor (e : Event) (groupType : String) : Int :=
  if groupType = "trio" then (e.price_trio_cents).getD 25000
  else if groupType = "duo" then (e.price_duo_cents).getD 18000
  else ((e.price_single_cents <|> e.price_cents)).getD 9000

/-- (e.allowed_tiers || 'single').split(',').map(trim+lower).filter(Boolean). -/
def allowedTiers (e : Event) : List String :=
  ((splitComma (jsStr e.allowed_tiers "single")).map
    (fun s => toLowerStr (trimStr s))).filter (fun s => s ≠ "")

/-- The register route's ticket-type validation: groupType must be a
non-empty member of {single,duo,trio} and of the event's allowed tiers. -/
def tierOk (e : Event) (ticket_type : Option String) : Bool :=
  let gt := toLowerStr (ticket_type.getD "")
  let allowed := allowedTiers e
  !(gt = "" ∨ gt ∉ ["single", "duo", "trio"] ∨ (allowed ≠ [] ∧ gt ∉ allowed))

/-- Required participant count: trio 3, duo 2, otherwise 1. -/
def needCountFor (gt : String) : Nat :=
  if gt = "trio" then 3 else if gt = "duo" then 2 else 1

/-- SELECT COUNT(1) FROM tickets WHERE event_id = ? (as a JS number). -/
def countTickets (db : DB) (eventId : Int) : Int :=
  ((db.tickets.filter (fun t => t.event_id == eventId)).length : Int)

/-- The register route's capacity test: e.capacity && count >= e.capacity. -/
def isFull (db : DB) (e : Event) : Bool :=
  jsTruthy e.capacity && decide (e.capacity.getD 0 ≤ countTickets db e.id)

/-- Organizer payment-collection details returned when a paid ticket is
created (register route, requires_payment branch). -/
structure PaymentInfo where
  account_name : String
  account_no : String
  ifsc : String
  upi_id : String
  upi_qr_url : Option String
  notes : String
deriving DecidableEq, Repr

/-- The event_payment object of the requires_payment response. -/
def paymentInfoOf (e : Event) : PaymentInfo :=
  { account_name := e.bank_account_name.getD ""
    account_no := e.bank_account_no.getD ""
    ifsc := e.bank_ifsc.getD ""
    upi_id := e.upi_id.getD ""
    upi_qr_url := e.upi_qr_url
    notes := e.payment_notes.getD "" }

/-- The HMAC base string: ticket_uuid | event_uuid | user_id. -/
def signBase (ticketUuid eventUuid : String) (userId : Int) : String :=
  ticketUuid ++ "|" ++ eventUuid ++ "|" ++ toString userId

/-- The QR-signing step: payload { ticket_uuid, event_uuid, user_id, sig }
with sig = hmac of the base string. -/
def signPayload (hmac : String → String) (ticketUuid eventUuid : String)
    (userId : Int) : QrPayload :=
  { ticket_uuid := ticketUuid
    event_uuid := eventUuid
    user_id := userId
    sig := hmac (signBase ticketUuid eventUuid userId) }

/-- Request body of the register route. -/
structure RegisterBody where
  payment_method : Option String
  discount_code : Option String
  ticket_type : Option String
  participants : Option (List Participant)
deriving DecidableEq, Repr

/-- Caller-visible outcome of the register route. -/
inductive RegisterResult
  | eventNotFound
  | eventFull
  | invalidTier
  | crash
  | requiresPayment (ticket_uuid : String) (payment : PaymentInfo)
  | ticket (t : Ticket)
deriving DecidableEq, Repr

/-- groupType = (ticket_type || '').toLowerCase(). -/
def groupTypeOf (body : RegisterBody) : String := toLowerStr (body.ticket_type.getD "")

/-- The discounted amount due and resolved code of a registration:
applyDiscount over the tier's base price. -/
def amountDueFor (db : DB) (e : Event) (body : RegisterBody) : Int × Option String :=
  applyDiscount db e.id (basePriceFor e (groupTypeOf body)) body.discount_code

/-- The participants slice/default step of the register route: take needCount
entries; if that leaves slot 0 empty, start from the requesting user's own
profile — none marks the JS TypeError raised there when the requesting
user's row is missing (primaryUser.name on undefined). -/
def resolveParts (db : DB) (userId : Int) (body : RegisterBody) (needCount : Nat) :
    Option (List Participant) :=
  match (body.participants.getD []).take needCount with
  | [] =>
    match db.users.find? (fun u => u.id == userId) with
    | none => none
    | some primary => some [⟨primary.name, primary.roll_number⟩]
  | arr0 => some arr0

/-- Pad the participant list with empty descriptors up to needCount. -/
def padParts (arr1 : List Participant) (needCount : Nat) : List Participant :=
  arr1 ++ List.replicate (needCount - arr1.length) ⟨"", ""⟩

/-- The ticket row the register route inserts (before the free-path QR
update): payment_status = final > 0 ? 'unpaid' : 'paid'. -/
def freshTicket (db : DB) (e : Event) (userId : Int) (body : RegisterBody)
    (ticketUuid now : String) (parts : List Participant) : Ticket :=
  { id := db.nextTicketId
    uuid := ticketUuid
    user_id := userId
    event_id := e.id
    qr_code := none
    checked_in := false
    created_at := now
    discount_code := (amountDueFor db e body).2
    price_paid_cents := 0
    payment_provider := body.payment_method
    payment_status := if 0 < (amountDueFor db e body).1 then .unpaid else .paid
    proof_txn_id := none
    proof_image_url := none
    proof_submitted_at := none
    reviewed_by := none
    reviewed_at := none
    rejection_reason := none
    group_type := some (groupTypeOf body)
    participants_json := some parts
    amount_due_cents := some (amountDueFor db e body).1 }

/-- POST /api/events/:uuid/register.  ticketUuid is the fresh uuidv4, now the
timestamp.  crash marks the JS TypeError of resolveParts; it happens before
any insert. -/
def register (hmac : String → String) (db : DB) (eventUuid : String) (userId : Int)
    (body : RegisterBody) (ticketUuid : String) (now : String) : DB × RegisterResult :=
  match db.events.find? (fun e => e.uuid == eventUuid) with
  | none => (db, .eventNotFound)
  | some e =>
    if isFull db e then (db, .eventFull)
    else if !tierOk e body.ticket_type then (db, .invalidTier)
    else
      match resolveParts db userId body (needCountFor (groupTypeOf body)) with
      | none => (db, .crash)
      | some arr1 =>
        let t0 := freshTicket db e userId body ticketUuid now
          (padParts arr1 (needCountFor (groupTypeOf body)))
        if 0 < (amountDueFor db e body).1 then
          ({ db with tickets := db.tickets ++ [t0], nextTicketId := db.nextTicketId + 1 },
           .requiresPayment ticketUuid (paymentInfoOf e))
        else
          let t1 := { t0 with qr_code := some (signPayload hmac ticketUuid e.uuid userId) }
          ({ db with tickets := db.tickets ++ [t1], nextTicketId := db.nextTicketId + 1 },
           .ticket t1)

/-- Caller-visible outcome of the payment-proof route. -/
inductive ProofResult
  | errMissing
  | errNotFound
  | ok
deriving DecidableEq, Repr

/-- POST /api/payments/proof: the ticket owner stores a transaction reference
and the ticket unconditionally moves to pending_proof. -/
def submitProof (db : DB) (userId : Int) (ticketUuid txnId : String)
    (fileUrl : Option String) (now : String) : DB × ProofResult :=
  if ticketUuid = "" ∨ txnId = "" then (db, .errMissing)
  else
    match db.tickets.find? (fun t => t.uuid == ticketUuid && t.user_id == userId) with
    | none => (db, .errNotFound)
    | some t =>
      ({ db with
          tickets := db.tickets.map (fun x =>
            if x.id == t.id then
              { x with
                  proof_txn_id := some txnId
                  proof_image_url := fileUrl
                  proof_submitted_at := some now
                  payment_status := .pending_proof }
            else x) },
       .ok)

/-- Caller-visible outcome of the approve / reject review routes. -/
inductive ReviewResult
  | errForbidden
  | errNotFound
  | crash
  | ok
deriving DecidableEq, Repr

/-- roleRequired('committee', 'admin'). -/
def roleOk (r : Role) : Bool := r == .committee || r == .admin

/-- POST /api/organizer/payments/:ticketUuid/approve: signs the QR payload
and sets payment_status = 'paid', reviewer metadata, and price_paid_cents =
COALESCE(amount_due_cents, price_paid_cents, 0).  crash marks the JS
TypeError when the ticket's event row is missing (e.created_by on
undefined); it happens before any write. -/
def approve (hmac : String → String) (db : DB) (actorId : Int) (actorRole : Role)
    (ticketUuid : String) (now : String) : DB × ReviewResult :=
  if !roleOk actorRole then (db, .errForbidden)
  else
    match db.tickets.find? (fun t => t.uuid == ticketUuid) with
    | none => (db, .errNotFound)
    | some t =>
      match db.events.find? (fun e => e.id == t.event_id) with
      | none => (db, .crash)
      | some e =>
        if actorRole ≠ .admin ∧ e.created_by ≠ actorId then (db, .errForbidden)
        else
          let payload := signPayload hmac t.uuid e.uuid t.user_id
          ({ db with
              tickets := db.tickets.map (fun x =>
                if x.id == t.id then
                  { x with
                      payment_status := .paid
                      qr_code := some payload
                      reviewed_by := some actorId
                      reviewed_at := some now
                      price_paid_cents := x.amount_due_cents.getD x.price_paid_cents }
                else x) },
           .ok)

/-- POST /api/organizer/payments/:ticketUuid/reject: sets payment_status =
'rejected' with the reason and reviewer metadata. -/
def reject (db : DB) (actorId : Int) (actorRole : Role) (ticketUuid : String)
    (reason : Option String) (now : String) : DB × ReviewResult :=
  if !roleOk actorRole then (db, .errForbidden)
  else
    match db.tickets.find? (fun t => t.uuid == ticketUuid) with
    | none => (db, .errNotFound)
    | some t =>
      match db.events.find? (fun e => e.id == t.event_id) with
      | none => (db, .crash)
      | some e =>
        if actorRole ≠ .admin ∧ e.created_by ≠ actorId then (db, .errForbidden)
        else
          ({ db with
              tickets := db.tickets.map (fun x =>
                if x.id == t.id then
                  { x with
                      payment_status := .rejected
                      rejection_reason := reason
                      reviewed_by := some actorId
                      reviewed_at := some now }
                else x) },
           .ok)

/-- Attendee details returned by the scan route (joined ticket, user, event). -/
structure Details where
  ticket_uuid : String
  user_name : String
  user_email : String
  event_title : String
deriving DecidableEq, Repr

/-- The details query: SELECT t.uuid, u.name, u.email, e.title FROM tickets t
JOIN users u JOIN events e WHERE t.id = ? (none when the join is empty). -/
def detailsFor (db : DB) (tid : Int) : Option Details :=
  match db.tickets.find? (fun t => t.id == tid) with
  | none => none
  | some t =>
    match db.users.find? (fun u => u.id == t.user_id),
          db.events.find? (fun e => e.id == t.event_id) with
    | some u, some e => some ⟨t.uuid, u.name, u.email, e.title⟩
    | _, _ => none

/-- Input of the scan route after the external JSON layer: noCode for a
missing/falsy code, badJson for a string JSON.parse rejects, payload for a
decoded object (absent members appear as "" / 0). -/
inductive ScanInput
  | noCode
  | badJson
  | payload (p : QrPayload)
deriving DecidableEq, Repr

/-- Caller-visible outcome of the scan route. -/
inductive ScanResult
  | errCodeRequired
  | errInvalidCode
  | errInvalidPayload
  | errBadSignature
  | errTicketNotFound
  | errUserMismatch
  | errEventMismatch
  | errNotPaid
  | ok (already : Bool) (details : Option Details)
deriving DecidableEq, Repr

/-- Whether a scan outcome is a success response. -/
def ScanResult.isOk : ScanResult → Bool
  | .ok _ _ => true
  | _ => false

/-- The attendance row the scan route inserts. -/
def qrAttendance (t : Ticket) (now : String) : Attendance :=
  { event_id := t.event_id
    user_id := t.user_id
    ticket_id := some t.id
    present := true
    timestamp := now
    source := "qr" }

/-- The store after a fresh successful scan of ticket t: checked_in set on
the row with t's id, one 'qr' attendance row appended. -/
def scanSuccessDB (db : DB) (t : Ticket) (now : String) : DB :=
  { db with
      tickets := db.tickets.map (fun x =>
        if x.id == t.id then { x with checked_in := true } else x)
      attendance := db.attendance ++ [qrAttendance t now] }

/-- POST /api/attendance/scan (handler body, after roleRequired): validate
the payload fields, recompute and compare the signature, look up the ticket,
cross-check user and event, require 'paid'; if already checked in return ok
with the already flag and no write, otherwise set checked_in = 1 and append
one attendance row with source 'qr'. -/
def scanStep (hmac : String → String) (db : DB) (inp : ScanInput) (now : String) :
    DB × ScanResult :=
  match inp with
  | .noCode => (db, .errCodeRequired)
  | .badJson => (db, .errInvalidCode)
  | .payload p =>
    if p.ticket_uuid = "" ∨ p.event_uuid = "" ∨ p.user_id = 0 ∨ p.sig = "" then
      (db, .errInvalidPayload)
    else
      let expected := hmac (signBase p.ticket_uuid p.event_uuid p.user_id)
      if expected ≠ p.sig then (db, .errBadSignature)
      else
        match db.tickets.find? (fun t => t.uuid == p.ticket_uuid) with
        | none => (db, .errTicketNotFound)
        | some t =>
          if t.user_id ≠ p.user_id then (db, .errUserMismatch)
          else
            match db.events.find? (fun e => e.id == t.event_id) with
            | none => (db, .errEventMismatch)
            | some ev =>
              if ev.uuid ≠ p.event_uuid then (db, .errEventMismatch)
              else if t.payment_status ≠ .paid then (db, .errNotPaid)
              else if t.checked_in then (db, .ok true (detailsFor db t.id))
              else
                (scanSuccessDB db t now, .ok false (detailsFor (scanSuccessDB db t now) t.id))

/-- Caller-visible outcome of the manual attendance route. -/
inductive ManualResult
  | errMissing
  | ok
deriving DecidableEq, Repr

/-- POST /api/attendance/manual (handler body): appends one attendance row
with source 'manual'; never touches tickets. -/
def manualAttendance (db : DB) (eventId userId : Int) (present : Bool)
    (now : String) : DB × ManualResult :=
  if eventId = 0 ∨ userId = 0 then (db, .errMissing)
  else
    ({ db with
        attendance := db.attendance ++
          [{ event_id := eventId, user_id := userId, ticket_id := none,
             present := present, timestamp := now, source := "manual" }] },
     .ok)

/-- One request against the ticket / attendance workflow. -/
inductive Op
  | register (eventUuid : String) (userId : Int) (body : RegisterBody)
      (ticketUuid now : String)
  | submitProof (userId : Int) (ticketUuid txnId : String) (fileUrl : Option String)
      (now : String)
  | approve (actorId : Int) (actorRole : Role) (ticketUuid now : String)
  | reject (actorId : Int) (actorRole : Role) (ticketUuid : String)
      (reason : Option String) (now : String)
  | scan (actorRole : Role) (inp : ScanInput) (now : String)
  | manual (actorRole : Role) (eventId userId : Int) (present : Bool) (now : String)

/-- The state transition of one request (scan and manual sit behind
roleRequired('committee','admin')). -/
def step (hmac : String → String) (db : DB) : Op → DB
  | .register eventUuid userId body ticketUuid now =>
    (register hmac db eventUuid userId body ticketUuid now).1
  | .submitProof userId ticketUuid txnId fileUrl now =>
    (submitProof db userId ticketUuid txnId fileUrl now).1
  | .approve actorId actorRole ticketUuid now =>
    (approve hmac db actorId actorRole ticketUuid now).1
  | .reject actorId actorRole ticketUuid reason now =>
    (reject db actorId actorRole ticketUuid reason now).1
  | .scan actorRole inp now =>
    if roleOk actorRole then (scanStep hmac db inp now).1 else db
  | .manual actorRole eventId userId present now =>
    if roleOk actorRole then (manualAttendance db eventId userId present now).1 else db

/-- A sequence of ScanCheckIn calls folded over the store. -/
def scanList (hmac : String → String) (db : DB) (l : List (ScanInput × String)) : DB :=
  l.foldl (fun d i => (scanStep hmac d i.1 i.2).1) db

/-- Database wellformedness used by the invariants: ticket primary keys are
pairwise distinct (the tickets.id column is the table's PRIMARY KEY). -/
def WF (db : DB) : Prop := (db.tickets.map Ticket.id).Nodup

/-- Number of attendance rows with source 'qr' for a given ticket id. -/
def qrCount (db : DB) (tid : Int) : Nat :=
  (db.attendance.filter (fun a => a.ticket_id == some tid && a.source == "qr")).length

/-- Whether the ticket with the given id is recorded as checked in. -/
def tidCheckedIn (db : DB) (tid : Int) : Bool :=
  db.tickets.any (fun t => t.id == tid && t.checked_in)

/-- Potential function for the at-most-once check-in argument: the number of
'qr' attendance rows of the ticket, plus one if it is not yet checked in. -/
def phi (db : DB) (tid : Int) : Nat :=
  qrCount db tid + (if tidCheckedIn db tid then 0 else 1)

section Lemmas

/-- Two rows of a table with Nodup primary keys and the same key are equal. -/
theorem nodupInj {l : List Ticket} (h : (l.map Ticket.id).Nodup) :
    ∀ x ∈ l, ∀ y ∈ l, x.id = y.id → x = y := by
  induction l with
  | nil => simp
  | cons a l ih =>
    simp only [List.map_cons, List.nodup_cons] at h
    intro x hx y hy hxy
    rcases List.mem_cons.1 hx with rfl | hx' <;> rcases List.mem_cons.1 hy with rfl | hy'
    · rfl
    · exact absurd (List.mem_map.2 ⟨y, hy', hxy.symm⟩) h.1
    · exact absurd (List.mem_map.2 ⟨x, hx', hxy⟩) h.1
    · exact ih h.2 x hx' y hy' hxy

/-- Pointwise equal predicates give equal List.any results. -/
theorem anyCongr {l : List Ticket} {p q : Ticket → Bool}
    (h : ∀ x ∈ l, p x = q x) : l.any p = l.any q := by
  induction l with
  | nil => rfl
  | cons a l ih =>
    simp only [List.any_cons, h a (List.mem_cons_self a l)]
    rw [ih (fun x hx => h x (List.mem_cons_of_mem a hx))]

/-- Case analysis of one ScanCheckIn call: either the store is unchanged, or
the call found a paid, not-yet-checked-in ticket and performed the fresh
check-in transition. -/
theorem scanStep_cases (hmac : String → String) (db : DB) (inp : ScanInput) (now : String) :
    (scanStep hmac db inp now).1 = db ∨
    ∃ p t, inp = .payload p ∧
      db.tickets.find? (fun x => x.uuid == p.ticket_uuid) = some t ∧
      t.checked_in = false ∧ t.payment_status = .paid ∧
      scanStep hmac db inp now =
        (scanSuccessDB db t now, .ok false (detailsFor (scanSuccessDB db t now) t.id)) := by
  cases inp with
  | noCode => exact Or.inl rfl
  | badJson => exact Or.inl rfl
  | payload p =>
    simp only [scanStep]
    split
    · exact Or.inl rfl
    split
    · exact Or.inl rfl
    split
    · exact Or.inl rfl
    next t heq =>
      split
      · exact Or.inl rfl
      split
      · exact Or.inl rfl
      next ev hev =>
        split
        · exact Or.inl rfl
        split
        · exact Or.inl rfl
        next hpaid =>
          split
          · exact Or.inl rfl
          next hchk =>
            right
            refine ⟨p, t, rfl, heq, ?_, ?_, rfl⟩
            · exact Bool.not_eq_true _ ▸ Bool.of_not_eq_true hchk
            · exact not_not.1 hpaid

/-- A scan never changes the list of ticket primary keys. -/
theorem scanStep_tickets_ids (hmac : String → String) (db : DB) (inp : ScanInput)
    (now : String) :
    ((scanStep hmac db inp now).1.tickets).map Ticket.id = db.tickets.map Ticket.id := by
  rcases scanStep_cases hmac db inp now with h | ⟨p, t, _, _, _, _, heq⟩
  · rw [h]
  · have h1 : (scanStep hmac db inp now).1 = scanSuccessDB db t now := by rw [heq]
    rw [h1]
    simp only [scanSuccessDB, List.map_map]
    refine List.map_congr_left ?_
    intro x _
    simp only [Function.comp]
    split <;> rfl

/-- A scan preserves wellformedness. -/
theorem scanStep_WF (hmac : String → String) (db : DB) (inp : ScanInput) (now : String)
    (h : WF db) : WF (scanStep hmac db inp now).1 := by
  unfold WF
  rw [scanStep_tickets_ids]
  exact h

/-- Under Nodup keys, the checked-in view at the key of a row found by any
lookup agrees with that row's flag. -/
theorem tidCheckedIn_find (db : DB) (hWF : WF db) {pred : Ticket → Bool} {t : Ticket}
    (heq : db.tickets.find? pred = some t) :
    tidCheckedIn db t.id = t.checked_in := by
  have ht := List.mem_of_find?_eq_some heq
  unfold tidCheckedIn
  cases hc : t.checked_in with
  | true => exact List.any_eq_true.2 ⟨t, ht, by simp [hc]⟩
  | false =>
    refine List.any_eq_false.2 ?_
    intro x hx hpx
    simp only [Bool.and_eq_true, beq_iff_eq] at hpx
    have hxt : x = t := nodupInj hWF x hx t ht hpx.1
    rw [hxt, hc] at hpx
    exact Bool.false_ne_true hpx.2

/-- The 'qr' attendance count after a fresh successful scan of t: one more at
t's key, unchanged elsewhere. -/
theorem qrCount_scanSuccess (db : DB) (t : Ticket) (now : String) (tid : Int) :
    qrCount (scanSuccessDB db t now) tid =
      qrCount db tid + (if t.id = tid then 1 else 0) := by
  unfold qrCount scanSuccessDB qrAttendance
  simp only [List.filter_append, List.length_append]
  congr 1
  by_cases h : t.id = tid
  · simp [h, List.filter]
  · have hb : (t.id == tid) = false := by simpa using h
    simp [List.filter, hb, h]

/-- After a fresh successful scan of t, t's key reads checked in. -/
theorem tidCheckedIn_scanSuccess_self (db : DB) (t : Ticket) (now : String)
    (ht : t ∈ db.tickets) :
    tidCheckedIn (scanSuccessDB db t now) t.id = true := by
  unfold tidCheckedIn scanSuccessDB
  refine List.any_eq_true.2 ?_
  refine ⟨{ t with checked_in := true }, List.mem_map.2 ⟨t, ht, by simp⟩, by simp⟩

/-- A fresh successful scan of t leaves the checked-in view of other keys
unchanged. -/
theorem tidCheckedIn_scanSuccess_other (db : DB) (t : Ticket) (now : String) (tid : Int)
    (h : ¬t.id = tid) :
    tidCheckedIn (scanSuccessDB db t now) tid = tidCheckedIn db tid := by
  unfold tidCheckedIn scanSuccessDB
  simp only [List.any_map]
  refine anyCongr ?_
  intro x _
  by_cases hx : x.id == t.id
  · have hxid : x.id = t.id := by simpa using hx
    simp [Function.comp, hx, hxid, h]
  · simp [Function.comp, hx]

/-- One scan never increases the potential. -/
theorem scanStep_phi_le (hmac : String → String) (db : DB) (inp : ScanInput)
    (now : String) (tid : Int) (hWF : WF db) :
    phi (scanStep hmac db inp now).1 tid ≤ phi db tid := by
  rcases scanStep_cases hmac db inp now with h | ⟨p, t, _, hfind, hchk, _, heq⟩
  · rw [h]
  · have h1 : (scanStep hmac db inp now).1 = scanSuccessDB db t now := by rw [heq]
    rw [h1]
    have ht := List.mem_of_find?_eq_some hfind
    by_cases htid : t.id = tid
    · subst htid
      have hc0 : tidCheckedIn db t.id = false := by
        rw [tidCheckedIn_find db hWF hfind, hchk]
      have hc1 := tidCheckedIn_scanSuccess_self db t now ht
      unfold phi
      rw [qrCount_scanSuccess, hc0, hc1]
      simp
    · unfold phi
      rw [qrCount_scanSuccess, tidCheckedIn_scanSuccess_other db t now tid htid]
      simp [htid]

/-- One scan preserves an already-checked-in flag. -/
theorem scanStep_checkedIn_mono (hmac : String → String) (db : DB) (inp : ScanInput)
    (now : String) (tid : Int) (h : tidCheckedIn db tid = true) :
    tidCheckedIn (scanStep hmac db inp now).1 tid = true := by
  rcases scanStep_cases hmac db inp now with hdb | ⟨p, t, _, hfind, _, _, heq⟩
  · rw [hdb]; exact h
  · have h1 : (scanStep hmac db inp now).1 = scanSuccessDB db t now := by rw [heq]
    rw [h1]
    obtain ⟨x, hx, hpx⟩ := List.any_eq_true.1 h
    unfold tidCheckedIn scanSuccessDB
    refine List.any_eq_true.2 ?_
    refine ⟨if x.id == t.id then { x with checked_in := true } else x,
      List.mem_map.2 ⟨x, hx, rfl⟩, ?_⟩
    simp only [Bool.and_eq_true, beq_iff_eq] at hpx
    by_cases hxi : x.id = t.id
    · have h1 : tid = t.id := hpx.1 ▸ hxi
      simp [hxi, h1]
    · have h1 : ¬tid = t.id := fun hc => hxi (hpx.1.symm ▸ hc)
      have hb : (x.id == t.id) = false := by simpa using hxi
      simp [hb, h1, hpx.1, hpx.2]

/-- A sequence of scans never increases the potential. -/
theorem scanList_phi_le (hmac : String → String) (db : DB)
    (l : List (ScanInput × String)) (tid : Int) (hWF : WF db) :
    phi (scanList hmac db l) tid ≤ phi db tid := by
  induction l generalizing db with
  | nil => exact le_refl _
  | cons a l ih =>
    have hWF' := scanStep_WF hmac db a.1 a.2 hWF
    exact le_trans (ih _ hWF') (scanStep_phi_le hmac db a.1 a.2 tid hWF)

/-- A sequence of scans preserves an already-checked-in flag. -/
theorem scanList_checkedIn_mono (hmac : String → String) (db : DB)
    (l : List (ScanInput × String)) (tid : Int) (h : tidCheckedIn db tid = true) :
    tidCheckedIn (scanList hmac db l) tid = true := by
  induction l generalizing db with
  | nil => exact h
  | cons a l ih => exact ih _ (scanStep_checkedIn_mono hmac db a.1 a.2 tid h)

/-- Membership in a keyed row update: every row of the updated table is an
untouched old row or the update of an old row with the targeted key. -/
theorem mem_map_upd {l : List Ticket} {i : Int} {f : Ticket → Ticket} {x' : Ticket}
    (h : x' ∈ l.map (fun x => if x.id == i then f x else x)) :
    ∃ x, x ∈ l ∧ (x' = x ∨ (x' = f x ∧ x.id = i)) := by
  obtain ⟨x, hx, hfx⟩ := List.mem_map.1 h
  by_cases hxi : x.id = i
  · refine ⟨x, hx, Or.inr ⟨?_, hxi⟩⟩
    rw [← hfx]
    simp [hxi]
  · refine ⟨x, hx, Or.inl ?_⟩
    have hb : (x.id == i) = false := by simpa using hxi
    rw [← hfx]
    simp [hb]

/-- Case analysis of one IssueTicket call: either the store is unchanged, or
exactly one fresh ticket was appended, not checked in, in state unpaid or
paid. -/
theorem register_tickets_cases (hmac : String → String) (db : DB) (eventUuid : String)
    (userId : Int) (body : RegisterBody) (ticketUuid now : String) :
    (register hmac db eventUuid userId body ticketUuid now).1 = db ∨
    ∃ t0 : Ticket,
      (register hmac db eventUuid userId body ticketUuid now).1.tickets =
        db.tickets ++ [t0] ∧
      t0.checked_in = false ∧
      (t0.payment_status = .unpaid ∨ t0.payment_status = .paid) := by
  unfold register
  cases hfind : db.events.find? (fun x => x.uuid == eventUuid) with
  | none => exact Or.inl rfl
  | some e =>
    by_cases hf : isFull db e
    · simp only [hf, if_true]
      exact Or.inl (by trivial)
    · simp only [hf, Bool.false_eq_true, if_false]
      by_cases ht : (!tierOk e body.ticket_type) = true
      · simp only [ht, if_true]
        exact Or.inl (by trivial)
      · simp only [ht, Bool.false_eq_true, if_false]
        cases hp : resolveParts db userId body (needCountFor (groupTypeOf body)) with
        | none => exact Or.inl rfl
        | some arr1 =>
          by_cases hlt : 0 < (amountDueFor db e body).1
          · simp only [hlt, if_true]
            right
            exact ⟨_, rfl, rfl, Or.inl (by simp [freshTicket, hlt])⟩
          · simp only [hlt, if_false]
            right
            exact ⟨_, rfl, rfl, Or.inr (by simp [freshTicket, hlt])⟩

/-- IssueTicket answers event-full exactly when the event was found and its
capacity test fired. -/
theorem register_eventFull_iff (hmac : String → String) (db : DB) (eventUuid : String)
    (userId : Int) (body : RegisterBody) (ticketUuid now : String) :
    (register hmac db eventUuid userId body ticketUuid now).2 = .eventFull ↔
    ∃ e, db.events.find? (fun x => x.uuid == eventUuid) = some e ∧ isFull db e = true := by
  unfold register
  cases hfind : db.events.find? (fun x => x.uuid == eventUuid) with
  | none => simp
  | some e =>
    by_cases hf : isFull db e
    · simp [hf]
    · simp only [hf, Bool.false_eq_true, if_false]
      constructor
      · intro h
        exfalso
        revert h
        by_cases ht : (!tierOk e body.ticket_type) = true
        · simp [ht]
        · simp only [ht, Bool.false_eq_true, if_false]
          cases hp : resolveParts db userId body (needCountFor (groupTypeOf body)) with
          | none => simp
          | some arr1 =>
            by_cases hlt : 0 < (amountDueFor db e body).1 <;> simp [hlt]
      · rintro ⟨e1, he1, hf1⟩
        cases he1
        exact absurd hf1 hf

/-- The capacity count ignores every ticket's payment status. -/
theorem countTickets_status_blind (db : DB) (eid : Int) (f : Ticket → PayStatus) :
    countTickets
      { db with tickets := db.tickets.map (fun t => { t with payment_status := f t }) }
      eid = countTickets db eid := by
  unfold countTickets
  simp only [Int.natCast_inj]
  induction db.tickets with
  | nil => rfl
  | cons a l ih =>
    simp only [List.map_cons, List.filter_cons]
    by_cases h : a.event_id == eid
    · simp only [h]
      simpa using ih
    · have hb : (a.event_id == eid) = false := by simpa using h
      simp only [hb]
      simpa using ih

/-- jsRound100 is floor of n/100 + 1/2 over the rationals, i.e. JS
Math.round of n/100. -/
theorem jsRound100_eq_floor (n : Int) : jsRound100 n = ⌊(n : ℚ) / 100 + 1 / 2⌋ := by
  have h : ((n : ℚ)) / 100 + 1 / 2 = ((n + 50 : ℤ) : ℚ) / ((100 : ℕ) : ℚ) := by
    push_cast
    ring
  rw [jsRound100, h, Rat.floor_intCast_div_natCast]
  norm_num

end Lemmas

section Fixtures

/-- Stand-in for the external HMAC-SHA256 hex-digest primitive in concrete
witnesses (any function works for the theorems below). -/
def hmx : String → String := fun s => String.append "h:" s

/-- A sample student row. -/
def sampleUser : User :=
  { id := 1
    uuid := "U1"
    name := "Alice"
    email := "alice@campus"
    roll_number := "R1"
    role := .student }

/-- A sample free single-tier event. -/
def baseEvent : Event :=
  { id := 1
    uuid := "E"
    title := "Ev"
    capacity := none
    price_cents := some 0
    created_by := 9
    bank_account_no := none
    bank_ifsc := none
    bank_account_name := none
    upi_id := none
    upi_qr_url := none
    payment_notes := none
    price_single_cents := none
    price_duo_cents := none
    price_trio_cents := none
    allowed_tiers := some "single" }

/-- A sample paid, not-yet-checked-in ticket of sampleUser on baseEvent. -/
def basePaidTicket : Ticket :=
  { id := 1
    uuid := "T"
    user_id := 1
    event_id := 1
    qr_code := none
    checked_in := false
    created_at := "c"
    discount_code := none
    price_paid_cents := 0
    payment_provider := none
    payment_status := .paid
    proof_txn_id := none
    proof_image_url := none
    proof_submitted_at := none
    reviewed_by := none
    reviewed_at := none
    rejection_reason := none
    group_type := some "single"
    participants_json := none
    amount_due_cents := some 0 }

/-- A sample store: one user, one event, no tickets. -/
def baseDB : DB :=
  { users := [sampleUser]
    events := [baseEvent]
    discounts := []
    tickets := []
    attendance := []
    nextTicketId := 1 }

/-- baseDB with the paid ticket present. -/
def dbPaid : DB := { baseDB with tickets := [basePaidTicket], nextTicketId := 2 }

/-- baseEvent with capacity 1. -/
def evCap1 : Event := { baseEvent with capacity := some 1 }

/-- Capacity-1 event, no tickets yet. -/
def dbCap1Empty : DB := { baseDB with events := [evCap1] }

/-- Capacity-1 event holding one (paid) ticket. -/
def dbCap1Full : DB := { dbPaid with events := [evCap1] }

/-- Capacity-1 event holding one unpaid ticket. -/
def dbCap1Unpaid : DB :=
  { baseDB with
      events := [evCap1]
      tickets := [{ basePaidTicket with payment_status := .unpaid }]
      nextTicketId := 2 }

/-- A sample registration body: a plain single ticket. -/
def baseBody : RegisterBody :=
  { payment_method := none
    discount_code := none
    ticket_type := some "single"
    participants := none }

end Fixtures

section Claims

/-- Claim C9: ScanCheckIn failure atomicity — on every non-success outcome
(missing code, malformed payload, invalid fields, signature mismatch, ticket
not found, ticket-user or ticket-event mismatch, ticket not paid), the store
is unchanged: no ticket field is modified and no attendance row is appended. -/
theorem scan_failure_atomic (hmac : String → String) (db : DB) (inp : ScanInput)
    (now : String) (h : (scanStep hmac db inp now).2.isOk = false) :
    (scanStep hmac db inp now).1 = db := by
  rcases scanStep_cases hmac db inp now with hdb | ⟨p, t, _, _, _, _, heq⟩
  · exact hdb
  · rw [heq] at h
    simp [ScanResult.isOk] at h

/-- Witness for C9: a scan whose payload names the wrong user is rejected
with a mismatch and leaves the store untouched. -/
theorem scan_failure_atomic_witness :
    (scanStep hmx dbPaid
        (.payload { ticket_uuid := "T", event_uuid := "E", user_id := 2,
                    sig := hmx (signBase "T" "E" 2) }) "n").2.isOk = false ∧
    (scanStep hmx dbPaid
        (.payload { ticket_uuid := "T", event_uuid := "E", user_id := 2,
                    sig := hmx (signBase "T" "E" 2) }) "n").1 = dbPaid :=
  ⟨by decide,
   scan_failure_atomic hmx dbPaid
     (.payload { ticket_uuid := "T", event_uuid := "E", user_id := 2,
                 sig := hmx (signBase "T" "E" 2) }) "n" (by decide)⟩

/-- Counterexample to C3 as stated: an event whose capacity column holds 0 is
non-null and has count >= capacity, yet IssueTicket does not answer
event-full (JS truthiness treats capacity 0 like null: unlimited). -/
theorem capacity_zero_not_full_cex :
    ({ baseEvent with capacity := some 0 }).capacity = some 0 ∧
    countTickets { baseDB with events := [{ baseEvent with capacity := some 0 }] } 1 = 0 ∧
    (register hmx { baseDB with events := [{ baseEvent with capacity := some 0 }] }
        "E" 1 baseBody "T1" "n").2 ≠ RegisterResult.eventFull := by
  refine ⟨rfl, rfl, ?_⟩
  decide

/-- Claim C3 (amended): IssueTicket rejects with event-full exactly when the
event's capacity is non-null AND non-zero (JS-truthy) and the count of
already-issued tickets is at least the capacity; a null OR zero capacity
never causes a fullness rejection. -/
theorem capacity_check_iff (hmac : String → String) (db : DB) (eventUuid : String)
    (userId : Int) (body : RegisterBody) (ticketUuid now : String) (e : Event)
    (hfind : db.events.find? (fun x => x.uuid == eventUuid) = some e) :
    (register hmac db eventUuid userId body ticketUuid now).2 = .eventFull ↔
      (jsTruthy e.capacity = true ∧ e.capacity.getD 0 ≤ countTickets db e.id) := by
  rw [register_eventFull_iff]
  constructor
  · rintro ⟨e1, he1, hf1⟩
    rw [hfind, Option.some_inj] at he1
    rw [← he1] at hf1
    unfold isFull at hf1
    simpa [Bool.and_eq_true, decide_eq_true_iff] using hf1
  · rintro ⟨h1, h2⟩
    refine ⟨e, hfind, ?_⟩
    unfold isFull
    simp [h1, h2]

/-- Witness for C3 (amended), the capacity-1 scenario: with capacity 1 and
one issued ticket the fullness test fires; with zero issued tickets it does
not. -/
theorem capacity_check_iff_witness :
    ((register hmx dbCap1Full "E" 1 baseBody "T2" "n").2 = .eventFull ↔
      (jsTruthy evCap1.capacity = true ∧
        evCap1.capacity.getD 0 ≤ countTickets dbCap1Full evCap1.id)) ∧
    ((register hmx dbCap1Empty "E" 1 baseBody "T2" "n").2 = .eventFull ↔
      (jsTruthy evCap1.capacity = true ∧
        evCap1.capacity.getD 0 ≤ countTickets dbCap1Empty evCap1.id)) :=
  ⟨capacity_check_iff hmx dbCap1Full "E" 1 baseBody "T2" "n" evCap1 (by decide),
   capacity_check_iff hmx dbCap1Empty "E" 1 baseBody "T2" "n" evCap1 (by decide)⟩

/-- Claim C10: the capacity check counts every ticket row of the event
regardless of payment_status — replacing all payment statuses (by any
function of the row) leaves the count unchanged, and whenever that blind
count reaches a truthy capacity the registration is rejected event-full. -/
theorem capacity_counts_all_statuses (hmac : String → String) (db : DB)
    (eventUuid : String) (userId : Int) (body : RegisterBody) (ticketUuid now : String)
    (e : Event) (f : Ticket → PayStatus)
    (hfind : db.events.find? (fun x => x.uuid == eventUuid) = some e)
    (hcap : jsTruthy e.capacity = true)
    (hge : e.capacity.getD 0 ≤ countTickets db e.id) :
    (register hmac db eventUuid userId body ticketUuid now).2 = .eventFull ∧
    countTickets
      { db with tickets := db.tickets.map (fun t => { t with payment_status := f t }) }
      e.id = countTickets db e.id := by
  refine ⟨?_, countTickets_status_blind db e.id f⟩
  rw [register_eventFull_iff]
  refine ⟨e, hfind, ?_⟩
  unfold isFull
  simp [hcap, hge]

/-- Witness for C10: an event of capacity 1 holding a single unpaid ticket
reports full, and the count is blind to a repaint of every status. -/
theorem capacity_counts_all_statuses_witness :
    (register hmx dbCap1Unpaid "E" 1 baseBody "T2" "n").2 = .eventFull ∧
    countTickets
      { dbCap1Unpaid with
          tickets := dbCap1Unpaid.tickets.map
            (fun t => { t with payment_status := (fun _ => PayStatus.paid) t }) }
      evCap1.id = countTickets dbCap1Unpaid evCap1.id :=
  capacity_counts_all_statuses hmx dbCap1Unpaid "E" 1 baseBody "T2" "n" evCap1
    (fun _ => PayStatus.paid) (by decide) (by decide) (by decide)

/-- Counterexample to C8 as stated: with no tier prices set, a single-tier
base price resolves to the event's flat price (even a flat price of 0), not
to the 9000 fallback: the fallback is only reached when the flat price
column is null, which the schema forbids. -/
theorem base_price_cex :
    ({ baseEvent with price_cents := some 0 }).price_single_cents = none ∧
    ({ baseEvent with price_cents := some 0 }).price_cents = some 0 ∧
    basePriceFor { baseEvent with price_cents := some 0 } "single" = 0 ∧
    basePriceFor { baseEvent with price_cents := some 0 } "single" ≠ 9000 ∧
    basePriceFor { baseEvent with price_cents := some 5000 } "single" = 5000 ∧
    basePriceFor { baseEvent with price_cents := some 5000 } "single" ≠ 9000 := by
  decide

/-- Claim C8 (amended): with a schema-conformant (non-null) flat price p,
base price resolution is: duo/trio use the tier price if set, else the
hardcoded fallbacks 18000/25000 (the flat price is never consulted); single
uses the tier price if set, else the flat price p (the 9000 fallback is
unreachable). -/
theorem base_price_resolution (e : Event) (p : Int) (hp : e.price_cents = some p) :
    basePriceFor e "single" = e.price_single_cents.getD p ∧
    basePriceFor e "duo" = e.price_duo_cents.getD 18000 ∧
    basePriceFor e "trio" = e.price_trio_cents.getD 25000 := by
  unfold basePriceFor
  refine ⟨?_, ?_, ?_⟩
  · rw [if_neg (by decide), if_neg (by decide)]
    cases hs : e.price_single_cents <;> simp [hs, hp, Option.orElse]
  · rw [if_neg (by decide), if_pos rfl]
  · rw [if_pos rfl]

/-- Witness for C8 (amended) at a concrete event with a set single price and
an unset duo price. -/
theorem base_price_resolution_witness :
    basePriceFor
        { baseEvent with price_cents := some 7000, price_single_cents := some 100 }
        "single" =
      ({ baseEvent with price_cents := some 7000, price_single_cents := some 100 }
        : Event).price_single_cents.getD 7000 ∧
    basePriceFor
        { baseEvent with price_cents := some 7000, price_single_cents := some 100 }
        "duo" =
      ({ baseEvent with price_cents := some 7000, price_single_cents := some 100 }
        : Event).price_duo_cents.getD 18000 ∧
    basePriceFor
        { baseEvent with price_cents := some 7000, price_single_cents := some 100 }
        "trio" =
      ({ baseEvent with price_cents := some 7000, price_single_cents := some 100 }
        : Event).price_trio_cents.getD 25000 :=
  base_price_resolution _ 7000 rfl

/-- A SAVE10 percentage-10 discount row for baseEvent. -/
def save10 : Discount :=
  { id := 1
    code := "SAVE10"
    event_id := 1
    percentage := some 10
    amount_cents := none
    max_uses := none
    used_count := 0
    active := true }

/-- baseDB with the SAVE10 discount configured. -/
def dbDisc : DB := { baseDB with discounts := [save10] }

/-- The discount arithmetic in the words of the spec sentence under test:
percentage reduction computed first and the reduced price FLOORED, then the
flat amount subtracted, clamped at zero.  (Int division by the positive 100
is floor division.) -/
def discountFloorSpec (basePrice : Int) (pct amt : Option Int) : Int :=
  let f1 : Int :=
    if jsTruthy pct then max 0 ((basePrice * (100 - pct.getD 0)) / 100) else basePrice
  if jsTruthy amt then max 0 (f1 - amt.getD 0) else f1

/-- Counterexample to C6 as stated: at base price 5 with a 10-percent
discount the code answers Math.round(4.5) = 5, while flooring would give 4. -/
theorem discount_floor_cex :
    (applyDiscount dbDisc 1 5 (some "SAVE10")).1 = 5 ∧
    discountFloorSpec 5 (some 10) none = 4 ∧
    (applyDiscount dbDisc 1 5 (some "SAVE10")).1 ≠ discountFloorSpec 5 (some 10) none := by
  decide

/-- The discount arithmetic actually implemented: percentage reduction first,
rounded to the nearest integer with halves rounded up (floor of x + 1/2 over
the rationals — JS Math.round), clamped at zero; then the flat amount
subtracted, clamped at zero. -/
def discountAmountRounded (basePrice : Int) (pct amt : Option Int) : Int :=
  let f1 : Int :=
    if jsTruthy pct then
      max 0 ⌊(((basePrice * (100 - pct.getD 0) : Int)) : ℚ) / 100 + 1 / 2⌋
    else basePrice
  if jsTruthy amt then max 0 (f1 - amt.getD 0) else f1

/-- Claim C6 (amended): when an active discount row is resolved, the
resulting amount_due applies the percentage reduction to the base price
first, ROUNDING HALF UP to the nearest integer (JS Math.round, not floor),
clamps at zero, then subtracts the flat amount, clamped at zero. -/
theorem discount_round_half_up (db : DB) (eid : Int) (b : Int) (c : String)
    (d : Discount) (hc : ¬c = "")
    (hfound : findDiscount db eid (toUpperStr c) = some d) :
    applyDiscount db eid b (some c) =
      (discountAmountRounded b d.percentage d.amount_cents, some d.code) := by
  simp only [applyDiscount, discountAmountRounded]
  rw [if_neg hc, hfound]
  simp only [jsRound100_eq_floor]

/-- Witness for C6 (amended): the SAVE10 scenario, 9000 resolving to 8100. -/
theorem discount_round_half_up_witness :
    applyDiscount dbDisc 1 9000 (some "SAVE10") =
      (discountAmountRounded 9000 save10.percentage save10.amount_cents,
       some save10.code) :=
  discount_round_half_up dbDisc 1 9000 "SAVE10" save10 (by decide) (by decide)

/-- Claim C7: discount no-ops and clamping — a code with no matching active
row for this event (nonexistent, inactive, or scoped to another event)
leaves the price unchanged with no error; a resolved percentage-0 discount
(with no flat part) leaves the price unchanged; a resolved percentage-100
discount (with a nonnegative flat part) yields 0; and from a nonnegative
base price the result is never negative. -/
theorem discount_noop_and_clamp (db : DB) (eid : Int) (b : Int) (c : String)
    (d : Discount) (cc : Option String) :
    ((∀ d1 ∈ db.discounts,
        ¬(d1.event_id = eid ∧ d1.code = toUpperStr c ∧ d1.active = true)) →
      applyDiscount db eid b (some c) = (b, none)) ∧
    (findDiscount db eid (toUpperStr c) = some d → ¬c = "" →
      (d.percentage = none ∨ d.percentage = some 0) →
      (d.amount_cents = none ∨ d.amount_cents = some 0) →
      (applyDiscount db eid b (some c)).1 = b) ∧
    (findDiscount db eid (toUpperStr c) = some d → ¬c = "" →
      d.percentage = some 100 → 0 ≤ d.amount_cents.getD 0 →
      (applyDiscount db eid b (some c)).1 = 0) ∧
    (0 ≤ b → 0 ≤ (applyDiscount db eid b cc).1) := by
  refine ⟨?_, ?_, ?_, ?_⟩
  · intro hmiss
    have hnone : findDiscount db eid (toUpperStr c) = none := by
      unfold findDiscount
      rw [List.find?_eq_none]
      intro d1 hd1
      have hm := hmiss d1 hd1
      simp only [Bool.and_eq_true, beq_iff_eq]
      rintro ⟨⟨h1, h2⟩, h3⟩
      exact hm ⟨h1, h2, h3⟩
    simp only [applyDiscount]
    by_cases hce : c = ""
    · rw [if_pos hce]
    · rw [if_neg hce, hnone]
  · intro hfound hc hp ha
    simp only [applyDiscount]
    rw [if_neg hc, hfound]
    have hp1 : jsTruthy d.percentage = false := by
      rcases hp with h | h <;> simp [h, jsTruthy]
    have ha1 : jsTruthy d.amount_cents = false := by
      rcases ha with h | h <;> simp [h, jsTruthy]
    simp [hp1, ha1]
  · intro hfound hc hp ha
    simp only [applyDiscount]
    rw [if_neg hc, hfound]
    have hp1 : jsTruthy d.percentage = true := by simp [hp, jsTruthy]
    have hz : jsRound100 (b * (100 - d.percentage.getD 0)) = 0 := by
      rw [hp]
      simp [jsRound100]
    simp only [hp1, if_true, hz]
    by_cases ha1 : jsTruthy d.amount_cents = true
    · simp only [ha1, if_true]
      omega
    · simp only [ha1]
      simp
  · intro hb
    cases cc with
    | none => exact hb
    | some c1 =>
      simp only [applyDiscount]
      by_cases hce : c1 = ""
      · rw [if_pos hce]
        exact hb
      · rw [if_neg hce]
        cases hfd : findDiscount db eid (toUpperStr c1) with
        | none => exact hb
        | some d1 =>
          simp only []
          by_cases ha1 : jsTruthy d1.amount_cents = true
          · simp only [ha1, if_true]
            exact le_max_left 0 _
          · simp only [ha1, Bool.false_eq_true, if_false]
            by_cases hp1 : jsTruthy d1.percentage = true
            · simp only [hp1, if_true]
              exact le_max_left 0 _
            · simp only [hp1, Bool.false_eq_true, if_false]
              exact hb

/-- Witness for C7 at concrete inputs: the FAKE code no-op, a zero-percent
code, a hundred-percent code, and nonnegativity under SAVE10. -/
theorem discount_noop_and_clamp_witness :
    applyDiscount dbDisc 1 9000 (some "FAKE") = (9000, none) ∧
    (applyDiscount
        { dbDisc with discounts := [{ save10 with code := "ZERO", percentage := some 0 }] }
        1 9000 (some "ZERO")).1 = 9000 ∧
    (applyDiscount
        { dbDisc with discounts := [{ save10 with code := "ALL", percentage := some 100 }] }
        1 9000 (some "ALL")).1 = 0 ∧
    0 ≤ (applyDiscount dbDisc 1 9000 (some "SAVE10")).1 :=
  ⟨(discount_noop_and_clamp dbDisc 1 9000 "FAKE" save10 (some "FAKE")).1 (by decide),
   (discount_noop_and_clamp
      { dbDisc with discounts := [{ save10 with code := "ZERO", percentage := some 0 }] }
      1 9000 "ZERO" { save10 with code := "ZERO", percentage := some 0 } none).2.1
     (by decide) (by decide) (by decide) (by decide),
   (discount_noop_and_clamp
      { dbDisc with discounts := [{ save10 with code := "ALL", percentage := some 100 }] }
      1 9000 "ALL" { save10 with code := "ALL", percentage := some 100 } none).2.2.1
     (by decide) (by decide) (by decide) (by decide),
   (discount_noop_and_clamp dbDisc 1 9000 "SAVE10" save10 (some "SAVE10")).2.2.2
     (by decide)⟩

/-- Claim C5: IssueTicket with a resolved amount due of 0 creates the ticket
directly in 'paid' state carrying the signed QR payload produced in the same
issuance; with a positive amount due it creates the ticket 'unpaid' with no
QR and answers requires-payment with the organizer's payment-collection
details. -/
theorem free_paid_issue_split (hmac : String → String) (db : DB) (eventUuid : String)
    (userId : Int) (body : RegisterBody) (ticketUuid now : String) (e : Event)
    (arr1 : List Participant)
    (hfind : db.events.find? (fun x => x.uuid == eventUuid) = some e)
    (hful : isFull db e = false)
    (htier : tierOk e body.ticket_type = true)
    (hparts : resolveParts db userId body (needCountFor (groupTypeOf body)) = some arr1) :
    ((amountDueFor db e body).1 = 0 →
      register hmac db eventUuid userId body ticketUuid now =
        ({ db with
            tickets := db.tickets ++
              [{ freshTicket db e userId body ticketUuid now
                   (padParts arr1 (needCountFor (groupTypeOf body))) with
                  qr_code := some (signPayload hmac ticketUuid e.uuid userId) }]
            nextTicketId := db.nextTicketId + 1 },
         .ticket
           { freshTicket db e userId body ticketUuid now
               (padParts arr1 (needCountFor (groupTypeOf body))) with
              qr_code := some (signPayload hmac ticketUuid e.uuid userId) }) ∧
      (freshTicket db e userId body ticketUuid now
          (padParts arr1 (needCountFor (groupTypeOf body)))).payment_status = .paid) ∧
    (0 < (amountDueFor db e body).1 →
      register hmac db eventUuid userId body ticketUuid now =
        ({ db with
            tickets := db.tickets ++
              [freshTicket db e userId body ticketUuid now
                 (padParts arr1 (needCountFor (groupTypeOf body)))]
            nextTicketId := db.nextTicketId + 1 },
         .requiresPayment ticketUuid (paymentInfoOf e)) ∧
      (freshTicket db e userId body ticketUuid now
          (padParts arr1 (needCountFor (groupTypeOf body)))).payment_status = .unpaid ∧
      (freshTicket db e userId body ticketUuid now
          (padParts arr1 (needCountFor (groupTypeOf body)))).qr_code = none) := by
  constructor
  · intro h0
    have hnlt : ¬0 < (amountDueFor db e body).1 := by omega
    constructor
    · simp only [register, hfind, hparts]
      rw [if_neg (by simp [hful]), if_neg (by simp [htier]), if_neg hnlt]
    · simp only [freshTicket]
      rw [if_neg hnlt]
  · intro hlt
    refine ⟨?_, ?_, rfl⟩
    · simp only [register, hfind, hparts]
      rw [if_neg (by simp [hful]), if_neg (by simp [htier]), if_pos hlt]
    · simp only [freshTicket]
      rw [if_pos hlt]

/-- Witness for C5: the free single-tier event issues a paid ticket with a
signed QR in one step (the positive-amount implication holds vacuously and
is kept in the instantiated conclusion). -/
theorem free_paid_issue_split_witness :
    ((amountDueFor baseDB baseEvent baseBody).1 = 0 →
      register hmx baseDB "E" 1 baseBody "T1" "n" =
        ({ baseDB with
            tickets := baseDB.tickets ++
              [{ freshTicket baseDB baseEvent 1 baseBody "T1" "n"
                   (padParts [⟨"Alice", "R1"⟩] (needCountFor (groupTypeOf baseBody))) with
                  qr_code := some (signPayload hmx "T1" baseEvent.uuid 1) }]
            nextTicketId := baseDB.nextTicketId + 1 },
         .ticket
           { freshTicket baseDB baseEvent 1 baseBody "T1" "n"
               (padParts [⟨"Alice", "R1"⟩] (needCountFor (groupTypeOf baseBody))) with
              qr_code := some (signPayload hmx "T1" baseEvent.uuid 1) }) ∧
      (freshTicket baseDB baseEvent 1 baseBody "T1" "n"
          (padParts [⟨"Alice", "R1"⟩] (needCountFor (groupTypeOf baseBody)))).payment_status
        = .paid) ∧
    (0 < (amountDueFor baseDB baseEvent baseBody).1 →
      register hmx baseDB "E" 1 baseBody "T1" "n" =
        ({ baseDB with
            tickets := baseDB.tickets ++
              [freshTicket baseDB baseEvent 1 baseBody "T1" "n"
                 (padParts [⟨"Alice", "R1"⟩] (needCountFor (groupTypeOf baseBody)))]
            nextTicketId := baseDB.nextTicketId + 1 },
         .requiresPayment "T1" (paymentInfoOf baseEvent)) ∧
      (freshTicket baseDB baseEvent 1 baseBody "T1" "n"
          (padParts [⟨"Alice", "R1"⟩] (needCountFor (groupTypeOf baseBody)))).payment_status
        = .unpaid ∧
      (freshTicket baseDB baseEvent 1 baseBody "T1" "n"
          (padParts [⟨"Alice", "R1"⟩] (needCountFor (groupTypeOf baseBody)))).qr_code
        = none) :=
  free_paid_issue_split hmx baseDB "E" 1 baseBody "T1" "n" baseEvent [⟨"Alice", "R1"⟩]
    (by decide) (by decide) (by decide) (by decide)

/-- basePaidTicket already checked in. -/
def tChecked : Ticket := { basePaidTicket with checked_in := true }

/-- baseDB holding the already-checked-in paid ticket. -/
def dbChecked : DB := { baseDB with tickets := [tChecked], nextTicketId := 2 }

/-- Claim C1: checked_in only ever moves false→true under scanning (it is
preserved by every further scan), any sequence of ScanCheckIn calls appends
at most one additional 'qr' attendance record for a given ticket id, and a
scan of a valid, paid, already-checked-in ticket answers success with the
already flag and the attendee details while leaving the store untouched. -/
theorem checkin_at_most_once (hmac : String → String) (db : DB)
    (l : List (ScanInput × String)) (tid : Int) (p : QrPayload) (t : Ticket) (ev : Event)
    (now : String)
    (hWF : WF db)
    (h1 : ¬p.ticket_uuid = "") (h2 : ¬p.event_uuid = "") (h3 : ¬p.user_id = 0)
    (h4 : ¬p.sig = "")
    (hsig : hmac (signBase p.ticket_uuid p.event_uuid p.user_id) = p.sig)
    (hfind : db.tickets.find? (fun x => x.uuid == p.ticket_uuid) = some t)
    (huser : t.user_id = p.user_id)
    (hev : db.events.find? (fun x => x.id == t.event_id) = some ev)
    (hevu : ev.uuid = p.event_uuid)
    (hpaid : t.payment_status = .paid)
    (hchk : t.checked_in = true) :
    qrCount (scanList hmac db l) tid ≤ qrCount db tid + 1 ∧
    (tidCheckedIn db tid = true → tidCheckedIn (scanList hmac db l) tid = true) ∧
    scanStep hmac db (.payload p) now = (db, .ok true (detailsFor db t.id)) := by
  refine ⟨?_, fun h => scanList_checkedIn_mono hmac db l tid h, ?_⟩
  · have hphi := scanList_phi_le hmac db l tid hWF
    have ha : qrCount (scanList hmac db l) tid ≤ phi (scanList hmac db l) tid := by
      unfold phi
      exact Nat.le_add_right _ _
    have hb : phi db tid ≤ qrCount db tid + 1 := by
      unfold phi
      split <;> omega
    exact le_trans ha (le_trans hphi hb)
  · simp only [scanStep]
    rw [if_neg (by simp [h1, h2, h3, h4])]
    rw [if_neg (by simp [hsig])]
    simp only [hfind]
    rw [if_neg (by simp [huser])]
    simp only [hev]
    rw [if_neg (by simp [hevu])]
    rw [if_neg (by simp [hpaid])]
    rw [if_pos hchk]

/-- Witness for C1: one further scan of the checked-in ticket appends
nothing and reports already = true with the attendee details. -/
theorem checkin_at_most_once_witness :
    qrCount
        (scanList hmx dbChecked [(.payload (signPayload hmx "T" "E" 1), "x")])
        tChecked.id ≤
      qrCount dbChecked tChecked.id + 1 ∧
    (tidCheckedIn dbChecked tChecked.id = true →
      tidCheckedIn
        (scanList hmx dbChecked [(.payload (signPayload hmx "T" "E" 1), "x")])
        tChecked.id = true) ∧
    scanStep hmx dbChecked (.payload (signPayload hmx "T" "E" 1)) "n" =
      (dbChecked, .ok true (detailsFor dbChecked tChecked.id)) :=
  checkin_at_most_once hmx dbChecked [(.payload (signPayload hmx "T" "E" 1), "x")]
    tChecked.id (signPayload hmx "T" "E" 1) tChecked baseEvent "n"
    (by unfold WF; decide) (by decide) (by decide) (by decide) (by decide) (by decide)
    (by decide) (by decide) (by decide) (by decide) (by decide) (by decide)

/-- Claim C2: signature round-trip and tamper rejection — scanning the
payload produced by the QR-signing step on a paid ticket succeeds, while
replacing the signature by any other string is rejected, and changing the
ticket id, event id, or user id field is rejected provided the HMAC of the
altered base string differs from the original signature (the
collision-resistance of the external HMAC-SHA256 primitive). -/
theorem qr_roundtrip_tamper (hmac : String → String) (db : DB) (t : Ticket) (ev : Event)
    (now : String) (s1 tu1 eu1 : String) (uid1 : Int)
    (hfind : db.tickets.find? (fun x => x.uuid == t.uuid) = some t)
    (hev : db.events.find? (fun x => x.id == t.event_id) = some ev)
    (hpaid : t.payment_status = .paid)
    (htu : ¬t.uuid = "") (heu : ¬ev.uuid = "") (huid : ¬t.user_id = 0)
    (hsig : ¬hmac (signBase t.uuid ev.uuid t.user_id) = "")
    (hs1 : ¬s1 = hmac (signBase t.uuid ev.uuid t.user_id))
    (htu1 : ¬hmac (signBase tu1 ev.uuid t.user_id) = hmac (signBase t.uuid ev.uuid t.user_id))
    (heu1 : ¬hmac (signBase t.uuid eu1 t.user_id) = hmac (signBase t.uuid ev.uuid t.user_id))
    (huid1 : ¬hmac (signBase t.uuid ev.uuid uid1) = hmac (signBase t.uuid ev.uuid t.user_id)) :
    (scanStep hmac db (.payload (signPayload hmac t.uuid ev.uuid t.user_id)) now).2.isOk
      = true ∧
    (scanStep hmac db
        (.payload { ticket_uuid := t.uuid, event_uuid := ev.uuid, user_id := t.user_id,
                    sig := s1 }) now).2.isOk = false ∧
    (scanStep hmac db
        (.payload { ticket_uuid := tu1, event_uuid := ev.uuid, user_id := t.user_id,
                    sig := hmac (signBase t.uuid ev.uuid t.user_id) }) now).2.isOk = false ∧
    (scanStep hmac db
        (.payload { ticket_uuid := t.uuid, event_uuid := eu1, user_id := t.user_id,
                    sig := hmac (signBase t.uuid ev.uuid t.user_id) }) now).2.isOk = false ∧
    (scanStep hmac db
        (.payload { ticket_uuid := t.uuid, event_uuid := ev.uuid, user_id := uid1,
                    sig := hmac (signBase t.uuid ev.uuid t.user_id) }) now).2.isOk = false := by
  refine ⟨?_, ?_, ?_, ?_, ?_⟩
  · simp only [scanStep, signPayload]
    rw [if_neg (by simp [htu, heu, huid, hsig])]
    rw [if_neg (by simp)]
    simp only [hfind]
    rw [if_neg (by simp)]
    simp only [hev]
    rw [if_neg (by simp)]
    rw [if_neg (by simp [hpaid])]
    by_cases hc : t.checked_in = true
    · rw [if_pos hc]
      rfl
    · rw [if_neg hc]
      rfl
  · simp only [scanStep]
    by_cases hse : s1 = ""
    · rw [if_pos (by simp [hse])]
      rfl
    · rw [if_neg (by simp [htu, heu, huid, hse])]
      rw [if_pos (by simpa using fun h => hs1 h.symm)]
      rfl
  · simp only [scanStep]
    by_cases hte : tu1 = ""
    · rw [if_pos (by simp [hte])]
      rfl
    · rw [if_neg (by simp [hte, heu, huid, hsig])]
      rw [if_pos (by simpa using htu1)]
      rfl
  · simp only [scanStep]
    by_cases hee : eu1 = ""
    · rw [if_pos (by simp [hee])]
      rfl
    · rw [if_neg (by simp [htu, hee, huid, hsig])]
      rw [if_pos (by simpa using heu1)]
      rfl
  · simp only [scanStep]
    by_cases hue : uid1 = 0
    · rw [if_pos (by simp [hue])]
      rfl
    · rw [if_neg (by simp [htu, heu, hue, hsig])]
      rw [if_pos (by simpa using huid1)]
      rfl

/-- Witness for C2: the paid ticket's signed payload scans successfully and
each single-field alteration is rejected, with a concrete digest function. -/
theorem qr_roundtrip_tamper_witness :
    (scanStep hmx dbPaid
        (.payload (signPayload hmx basePaidTicket.uuid baseEvent.uuid
          basePaidTicket.user_id)) "n").2.isOk = true ∧
    (scanStep hmx dbPaid
        (.payload { ticket_uuid := basePaidTicket.uuid, event_uuid := baseEvent.uuid,
                    user_id := basePaidTicket.user_id, sig := "x" }) "n").2.isOk = false ∧
    (scanStep hmx dbPaid
        (.payload { ticket_uuid := "T2", event_uuid := baseEvent.uuid,
                    user_id := basePaidTicket.user_id,
                    sig := hmx (signBase basePaidTicket.uuid baseEvent.uuid
                      basePaidTicket.user_id) }) "n").2.isOk = false ∧
    (scanStep hmx dbPaid
        (.payload { ticket_uuid := basePaidTicket.uuid, event_uuid := "E2",
                    user_id := basePaidTicket.user_id,
                    sig := hmx (signBase basePaidTicket.uuid baseEvent.uuid
                      basePaidTicket.user_id) }) "n").2.isOk = false ∧
    (scanStep hmx dbPaid
        (.payload { ticket_uuid := basePaidTicket.uuid, event_uuid := baseEvent.uuid,
                    user_id := 2,
                    sig := hmx (signBase basePaidTicket.uuid baseEvent.uuid
                      basePaidTicket.user_id) }) "n").2.isOk = false :=
  qr_roundtrip_tamper hmx dbPaid basePaidTicket baseEvent "n" "x" "T2" "E2" 2
    (by decide) (by decide) (by decide) (by decide) (by decide) (by decide) (by decide)
    (by decide) (by decide) (by decide) (by decide)

/-- Counterexample to C4 as stated: SubmitPaymentProof carries no guard on
the current status, so the owner of an already-paid ticket moves it
paid → pending_proof — an operation does move a ticket out of 'paid'. -/
theorem paid_leaves_paid_cex :
    dbPaid.tickets.map Ticket.payment_status = [PayStatus.paid] ∧
    (step hmx dbPaid (Op.submitProof 1 "T" "TX" none "n")).tickets.map
      Ticket.payment_status = [PayStatus.pending_proof] := by
  decide

/-- Claim C4 (amended): after any one request, every ticket either descends
from an existing row with the same id and uuid such that (i) its
payment_status is unchanged or was just set by a proof/review route to
pending_proof, paid or rejected — so a ticket never re-enters 'unpaid', but
submitProof may move ANY status (including 'paid') to 'pending_proof',
approve any status to 'paid', and reject any status to 'rejected' — (ii)
checked_in never goes true → false, and (iii) checked_in goes false → true
only on a ticket whose payment_status is 'paid'; or it is the freshly
inserted ticket of IssueTicket, not checked in, in state 'unpaid' or
'paid'. -/
theorem status_machine_amended (hmac : String → String) (db : DB) (op : Op)
    (x1 : Ticket) (hWF : WF db) (hx1 : x1 ∈ (step hmac db op).tickets) :
    (∃ x, x ∈ db.tickets ∧ x.id = x1.id ∧ x.uuid = x1.uuid ∧
      (x1.payment_status = x.payment_status ∨ ¬x1.payment_status = .unpaid) ∧
      (x.checked_in = true → x1.checked_in = true) ∧
      (x1.checked_in = true → x.checked_in = true ∨
        (x.payment_status = .paid ∧ x1.payment_status = .paid))) ∨
    (x1.checked_in = false ∧
      (x1.payment_status = .unpaid ∨ x1.payment_status = .paid)) := by
  have base : x1 ∈ db.tickets →
      (∃ x, x ∈ db.tickets ∧ x.id = x1.id ∧ x.uuid = x1.uuid ∧
        (x1.payment_status = x.payment_status ∨ ¬x1.payment_status = .unpaid) ∧
        (x.checked_in = true → x1.checked_in = true) ∧
        (x1.checked_in = true → x.checked_in = true ∨
          (x.payment_status = .paid ∧ x1.payment_status = .paid))) ∨
      (x1.checked_in = false ∧
        (x1.payment_status = .unpaid ∨ x1.payment_status = .paid)) :=
    fun hx => Or.inl ⟨x1, hx, rfl, rfl, Or.inl rfl, fun h => h, fun h => Or.inl h⟩
  cases op with
  | register eU uid body tU nw =>
    simp only [step] at hx1
    rcases register_tickets_cases hmac db eU uid body tU nw with hdb | ⟨t0, hts, hchk, hst⟩
    · rw [hdb] at hx1
      exact base hx1
    · rw [hts] at hx1
      rcases List.mem_append.1 hx1 with hx | hx
      · exact base hx
      · have hx1t : x1 = t0 := by simpa using hx
        rw [hx1t]
        exact Or.inr ⟨hchk, hst⟩
  | submitProof uid tU txn fu nw =>
    simp only [step, submitProof] at hx1
    by_cases hm : tU = "" ∨ txn = ""
    · rw [if_pos hm] at hx1
      exact base hx1
    · rw [if_neg hm] at hx1
      cases hf : db.tickets.find? (fun t => t.uuid == tU && t.user_id == uid) with
      | none =>
        simp only [hf] at hx1
        exact base hx1
      | some t =>
        simp only [hf] at hx1
        obtain ⟨x, hx, hcase⟩ := mem_map_upd hx1
        rcases hcase with rfl | ⟨hx1eq, hxid⟩
        · exact base hx
        · rw [hx1eq]
          exact Or.inl ⟨x, hx, rfl, rfl, Or.inr (by simp), fun h => h,
            fun h => Or.inl h⟩
  | approve aid arole tU nw =>
    simp only [step, approve] at hx1
    by_cases hr : (!roleOk arole) = true
    · rw [if_pos hr] at hx1
      exact base hx1
    · rw [if_neg hr] at hx1
      cases hf : db.tickets.find? (fun t => t.uuid == tU) with
      | none =>
        simp only [hf] at hx1
        exact base hx1
      | some t =>
        simp only [hf] at hx1
        cases hfe : db.events.find? (fun e => e.id == t.event_id) with
        | none =>
          simp only [hfe] at hx1
          exact base hx1
        | some e =>
          simp only [hfe] at hx1
          by_cases hfo : arole ≠ .admin ∧ e.created_by ≠ aid
          · rw [if_pos hfo] at hx1
            exact base hx1
          · rw [if_neg hfo] at hx1
            obtain ⟨x, hx, hcase⟩ := mem_map_upd hx1
            rcases hcase with rfl | ⟨hx1eq, hxid⟩
            · exact base hx
            · rw [hx1eq]
              exact Or.inl ⟨x, hx, rfl, rfl, Or.inr (by simp), fun h => h,
                fun h => Or.inl h⟩
  | reject aid arole tU reason nw =>
    simp only [step, reject] at hx1
    by_cases hr : (!roleOk arole) = true
    · rw [if_pos hr] at hx1
      exact base hx1
    · rw [if_neg hr] at hx1
      cases hf : db.tickets.find? (fun t => t.uuid == tU) with
      | none =>
        simp only [hf] at hx1
        exact base hx1
      | some t =>
        simp only [hf] at hx1
        cases hfe : db.events.find? (fun e => e.id == t.event_id) with
        | none =>
          simp only [hfe] at hx1
          exact base hx1
        | some e =>
          simp only [hfe] at hx1
          by_cases hfo : arole ≠ .admin ∧ e.created_by ≠ aid
          · rw [if_pos hfo] at hx1
            exact base hx1
          · rw [if_neg hfo] at hx1
            obtain ⟨x, hx, hcase⟩ := mem_map_upd hx1
            rcases hcase with rfl | ⟨hx1eq, hxid⟩
            · exact base hx
            · rw [hx1eq]
              exact Or.inl ⟨x, hx, rfl, rfl, Or.inr (by simp), fun h => h,
                fun h => Or.inl h⟩
  | scan arole inp nw =>
    simp only [step] at hx1
    by_cases hr : roleOk arole = true
    · rw [if_pos hr] at hx1
      rcases scanStep_cases hmac db inp nw with hdb | ⟨p, t, hinp, hfind, hchk, hpaid, heq⟩
      · rw [hdb] at hx1
        exact base hx1
      · have h1 : (scanStep hmac db inp nw).1 = scanSuccessDB db t nw := by rw [heq]
        rw [h1] at hx1
        simp only [scanSuccessDB] at hx1
        obtain ⟨x, hx, hcase⟩ := mem_map_upd hx1
        rcases hcase with rfl | ⟨hx1eq, hxid⟩
        · exact base hx
        · have hxt : x = t := nodupInj hWF x hx t (List.mem_of_find?_eq_some hfind) hxid
          rw [hx1eq]
          refine Or.inl ⟨x, hx, rfl, rfl, Or.inl rfl, fun _ => rfl, fun _ => Or.inr ?_⟩
          rw [hxt]
          exact ⟨hpaid, hpaid⟩
    · rw [if_neg hr] at hx1
      exact base hx1
  | manual arole eid uid pr nw =>
    simp only [step, manualAttendance] at hx1
    by_cases hr : roleOk arole = true
    · rw [if_pos hr] at hx1
      by_cases hm : eid = 0 ∨ uid = 0
      · rw [if_pos hm] at hx1
        exact base hx1
      · rw [if_neg hm] at hx1
        exact base hx1
    · rw [if_neg hr] at hx1
      exact base hx1

/-- Witness for C4 (amended): the proof-resubmission of the paid ticket
descends from it with an allowed (non-unpaid) status write. -/
theorem status_machine_amended_witness :
    (∃ x, x ∈ dbPaid.tickets ∧
      x.id = ({ basePaidTicket with
          proof_txn_id := some "TX", proof_submitted_at := some "n",
          payment_status := .pending_proof } : Ticket).id ∧
      x.uuid = ({ basePaidTicket with
          proof_txn_id := some "TX", proof_submitted_at := some "n",
          payment_status := .pending_proof } : Ticket).uuid ∧
      (({ basePaidTicket with
          proof_txn_id := some "TX", proof_submitted_at := some "n",
          payment_status := .pending_proof } : Ticket).payment_status = x.payment_status ∨
        ¬({ basePaidTicket with
          proof_txn_id := some "TX", proof_submitted_at := some "n",
          payment_status := .pending_proof } : Ticket).payment_status = .unpaid) ∧
      (x.checked_in = true →
        ({ basePaidTicket with
          proof_txn_id := some "TX", proof_submitted_at := some "n",
          payment_status := .pending_proof } : Ticket).checked_in = true) ∧
      (({ basePaidTicket with
          proof_txn_id := some "TX", proof_submitted_at := some "n",
          payment_status := .pending_proof } : Ticket).checked_in = true →
        x.checked_in = true ∨
        (x.payment_status = .paid ∧
          ({ basePaidTicket with
            proof_txn_id := some "TX", proof_submitted_at := some "n",
            payment_status := .pending_proof } : Ticket).payment_status = .paid))) ∨
    (({ basePaidTicket with
        proof_txn_id := some "TX", proof_submitted_at := some "n",
        payment_status := .pending_proof } : Ticket).checked_in = false ∧
      (({ basePaidTicket with
          proof_txn_id := some "TX", proof_submitted_at := some "n",
          payment_status := .pending_proof } : Ticket).payment_status = .unpaid ∨
        ({ basePaidTicket with
          proof_txn_id := some "TX", proof_submitted_at := some "n",
          payment_status := .pending_proof } : Ticket).payment_status = .paid)) :=
  status_machine_amended hmx dbPaid (Op.submitProof 1 "T" "TX" none "n")
    { basePaidTicket with
        proof_txn_id := some "TX", proof_submitted_at := some "n",
        payment_status := .pending_proof }
    (by unfold WF; decide) (by decide)

end Claims

end CV
